import Mathlib

/-!
Verification of the turn-execution engine of the cli-coding-agent repository:
the error classifier (src/errors/index.js), the completion client with retry
(src/api/client.js, callChatApi), the tool invoker and turn orchestrator
(src/cli/interface.js, runCLI), shallowly embedded in Lean.

Modelling conventions for the JavaScript source:
  * A JS error value is a plain object; the embedding `ErrObj` carries exactly
    the fields the errors module reads, with `Option` for possibly-absent
    fields and `Bool` for the strict boolean checks (`=== true`).
  * JS truthiness is modelled per type: an absent field and the empty string
    are falsy, the number 0 is falsy; `a || b` and `a ?? b` are the
    corresponding explicit functions below.
  * A value that may be a string or a non-string object (the server-provided
    error detail that the code promotes verbatim into `message`) is `MVal`;
    coercing a non-string object to a string gives "[object Object]" as in JS.
  * `JSON.parse` and `JSON.stringify` belong to the JS runtime, not to the
    repository; parsing is therefore a parameter (`jparse`) of the tool
    invoker, and serialization is the explicit `jsonStringify` below over the
    JSON value shapes the program constructs.
  * `navigator` is taken as undefined (plain Node environment), so
    `handleNetworkError` sets the offline flag to true, as the source comments
    it would.
-/

/- ================= JS truthiness helpers ================= -/

/-- Truthiness of a possibly-absent JS string: absent and "" are falsy. -/
def truthyStr : Option String → Bool
  | some s => !s.isEmpty
  | none => false

/-- JS `a || b` on possibly-absent strings. -/
def jsOrStr (a b : Option String) : Option String :=
  if truthyStr a then a else b

/-- Truthiness of a possibly-absent JS number: absent and 0 are falsy. -/
def truthyNat : Option Nat → Bool
  | some n => n != 0
  | none => false

/-- JS `a || b` on possibly-absent numbers. -/
def jsOrNat (a b : Option Nat) : Option Nat :=
  if truthyNat a then a else b

/-- JS `a ?? b` on possibly-absent numbers (only null/undefined fall through). -/
def jsCoalesceNat (a b : Option Nat) : Option Nat :=
  match a with
  | some n => some n
  | none => b

/-- JS substring containment, `s.includes(pat)`. -/
def strContains (s pat : String) : Bool :=
  (List.range (s.toList.length + 1)).any
    (fun i => List.isPrefixOf pat.toList (s.toList.drop i))

/-- JS `s.startsWith(pat)`. -/
def jsStartsWith (s pat : String) : Bool :=
  List.isPrefixOf pat.toList s.toList

/-- JS `s.toLowerCase()`. -/
def jsToLower (s : String) : String :=
  String.mk (s.toList.map Char.toLower)

/-- JS `s.trim()`: strip whitespace from both ends. -/
def jsTrim (s : String) : String :=
  String.mk (((s.toList.dropWhile Char.isWhitespace).reverse.dropWhile
    Char.isWhitespace).reverse)

/- ================= The message-value domain ================= -/

/-- A JS value stored in an error object field that the code may set either to
a string or to a non-string object (a structured server detail promoted
verbatim). A non-string object is opaque except for its JSON serialization,
which it carries. -/
inductive MVal where
  | str : String → MVal
  | objVal : String → MVal
deriving DecidableEq, Repr

/-- Truthiness of a possibly-absent `MVal`: objects are truthy, a string is
truthy when non-empty. -/
def truthyMVal : Option MVal → Bool
  | some (.str s) => !s.isEmpty
  | some (.objVal _) => true
  | none => false

/-- JS `a || b` on possibly-absent message values. -/
def jsOrMVal (a b : Option MVal) : Option MVal :=
  if truthyMVal a then a else b

/-- JS `String(x)` where x is the value of `error.message || ""`. -/
def mvalToString : Option MVal → String
  | some (.str s) => s
  | some (.objVal _) => "[object Object]"
  | none => ""

/-- The shapes `response.data.error` can take: a plain string, an object with
a `.message` string (carrying also its own serialization), or an object with
no message (carrying its serialization). -/
inductive RespErr where
  | str : String → RespErr
  | objWithMessage : String → String → RespErr
  | objNoMessage : String → RespErr
deriving DecidableEq, Repr

/- ================= ERROR_TYPES, ERROR_MESSAGES, STATUS_CODE_MAP ================= -/

/-- The error kinds of `ERROR_TYPES` in src/errors/index.js. -/
inductive ErrorType where
  | BAD_REQUEST
  | API_AUTH_ERROR
  | NOT_FOUND
  | TIMEOUT
  | CONFLICT
  | RATE_LIMITED
  | API_ERROR
  | SERVICE_UNAVAILABLE
  | NETWORK_ERROR
  | TOOL_SERVER_ERROR
  | TOOL_NOT_FOUND
  | INVALID_TOOL_ARGS
  | CONFIG_ERROR
  | PROMPT_FILE_ERROR
  | UNKNOWN_ERROR
deriving DecidableEq, Repr

/-- The string value of each `ERROR_TYPES` member. -/
def ERROR_TYPES : ErrorType → String
  | .BAD_REQUEST => "bad_request"
  | .API_AUTH_ERROR => "api_auth_error"
  | .NOT_FOUND => "not_found"
  | .TIMEOUT => "timeout"
  | .CONFLICT => "conflict"
  | .RATE_LIMITED => "rate_limited"
  | .API_ERROR => "api_error"
  | .SERVICE_UNAVAILABLE => "service_unavailable"
  | .NETWORK_ERROR => "network_error"
  | .TOOL_SERVER_ERROR => "tool_server_error"
  | .TOOL_NOT_FOUND => "tool_not_found"
  | .INVALID_TOOL_ARGS => "invalid_tool_args"
  | .CONFIG_ERROR => "config_error"
  | .PROMPT_FILE_ERROR => "prompt_file_error"
  | .UNKNOWN_ERROR => "unknown_error"

/-- The string values of the `ERROR_TYPES` enumeration, as a list. -/
def ERROR_TYPE_STRINGS : List String :=
  ["bad_request", "api_auth_error", "not_found", "timeout", "conflict",
   "rate_limited", "api_error", "service_unavailable", "network_error",
   "tool_server_error", "tool_not_found", "invalid_tool_args",
   "config_error", "prompt_file_error", "unknown_error"]

/-- Recover the `ERROR_TYPES` member a string denotes, if any (the inverse of
`ERROR_TYPES`, used to model indexing the `ERROR_MESSAGES` object by an
arbitrary string). -/
def errorTypeOfString (s : String) : Option ErrorType :=
  if s = "bad_request" then some .BAD_REQUEST
  else if s = "api_auth_error" then some .API_AUTH_ERROR
  else if s = "not_found" then some .NOT_FOUND
  else if s = "timeout" then some .TIMEOUT
  else if s = "conflict" then some .CONFLICT
  else if s = "rate_limited" then some .RATE_LIMITED
  else if s = "api_error" then some .API_ERROR
  else if s = "service_unavailable" then some .SERVICE_UNAVAILABLE
  else if s = "network_error" then some .NETWORK_ERROR
  else if s = "tool_server_error" then some .TOOL_SERVER_ERROR
  else if s = "tool_not_found" then some .TOOL_NOT_FOUND
  else if s = "invalid_tool_args" then some .INVALID_TOOL_ARGS
  else if s = "config_error" then some .CONFIG_ERROR
  else if s = "prompt_file_error" then some .PROMPT_FILE_ERROR
  else if s = "unknown_error" then some .UNKNOWN_ERROR
  else none

/-- The configured environment variable name holding the API key
(src/config/index.js, `ENV_VAR_API_KEY`). -/
def ENV_VAR_API_KEY : String := "API_KEY"

/-- The user-facing message of each error kind (`ERROR_MESSAGES`). -/
def errorMessageOf : ErrorType → String
  | .BAD_REQUEST => "Invalid request sent to the API. Please check the input or parameters."
  | .API_AUTH_ERROR => "Authentication failed. Please check your API Key (" ++ ENV_VAR_API_KEY ++ ")."
  | .NOT_FOUND => "The requested API endpoint or resource was not found."
  | .TIMEOUT => "The request timed out. The network or API might be slow. Please try again."
  | .CONFLICT => "A conflict occurred. This might be due to concurrent operations."
  | .RATE_LIMITED => "API rate limit exceeded. Please wait a moment and try again."
  | .API_ERROR => "An unexpected error occurred on the API server side. Please try again later."
  | .SERVICE_UNAVAILABLE => "The API service is temporarily unavailable. Please try again later."
  | .NETWORK_ERROR => "Network error. Please check your internet connection and try again."
  | .TOOL_SERVER_ERROR => "Error communicating with or executing the tool server."
  | .TOOL_NOT_FOUND => "The requested tool could not be found."
  | .INVALID_TOOL_ARGS => "Invalid arguments provided for the tool."
  | .CONFIG_ERROR => "Configuration error. Please check environment variables or setup."
  | .PROMPT_FILE_ERROR => "Error reading the system prompt file."
  | .UNKNOWN_ERROR => "An unexpected error occurred. Please try again."

/-- Indexing the `ERROR_MESSAGES` object by an arbitrary string key: absent
keys give undefined. -/
def ERROR_MESSAGES (key : String) : Option String :=
  (errorTypeOfString key).map errorMessageOf

/-- `STATUS_CODE_MAP` of src/errors/index.js: HTTP status to error kind. -/
def STATUS_CODE_MAP (status : Nat) : Option ErrorType :=
  if status = 400 then some .BAD_REQUEST
  else if status = 401 then some .API_AUTH_ERROR
  else if status = 403 then some .API_AUTH_ERROR
  else if status = 404 then some .NOT_FOUND
  else if status = 408 then some .TIMEOUT
  else if status = 409 then some .CONFLICT
  else if status = 429 then some .RATE_LIMITED
  else if status = 500 then some .API_ERROR
  else if status = 502 then some .SERVICE_UNAVAILABLE
  else if status = 503 then some .SERVICE_UNAVAILABLE
  else if status = 504 then some .TIMEOUT
  else none

/- ================= Configuration (src/config/index.js) ================= -/

/-- Maximum number of retries for API calls. -/
def MAX_RETRIES : Nat := 3

/-- Initial backoff delay in milliseconds. -/
def INITIAL_RETRY_DELAY_MS : Nat := 1000

/-- Default tool server base URL. -/
def TOOL_SERVER_BASE_URL : String := "http://127.0.0.1:8080"

/- ================= The error-object universe ================= -/

/-- A JS error value as this module reads it: each field the code of
src/errors/index.js inspects, with `none`/`false` standing for an absent
field. The same universe holds raw failures and classified errors, exactly as
in JS. -/
structure ErrObj where
  isErrorInstance : Bool := false
  isTypeErrorInstance : Bool := false
  message : Option MVal := none
  code : Option String := none
  status : Option Nat := none
  responseStatus : Option Nat := none
  responseDataError : Option RespErr := none
  responseErrorMessage : Option String := none
  details : Option String := none
  etype : Option String := none
  originalError : Option String := none
  isProcessed : Bool := false
  isRetryable : Bool := false
  isOffline : Bool := false
deriving DecidableEq, Repr

/-- `isAlreadyProcessed`: the object was produced by this service
(`isProcessed === true` and a truthy `type`). -/
def isAlreadyProcessed (error : ErrObj) : Bool :=
  error.isProcessed && truthyStr error.etype

/-- JS `String(error)` for the original-error reference stored by
`createStandardError` (opaque to every property verified here). -/
def stringOfError (error : ErrObj) : String :=
  mvalToString error.message

/-- `createStandardError`: the standardised error object. The JS object
literal carries exactly the fields written below; every other field of the
universe is absent in it. -/
def createStandardError (error : ErrObj) (defaultType : ErrorType) : ErrObj :=
  { etype := some (ERROR_TYPES defaultType)
    message := (jsOrStr (ERROR_MESSAGES (ERROR_TYPES defaultType))
        (ERROR_MESSAGES (ERROR_TYPES ErrorType.UNKNOWN_ERROR))).map MVal.str
    details := none
    status := jsOrNat error.status (jsOrNat error.responseStatus none)
    originalError := some (stringOfError error)
    isProcessed := true
    isRetryable := false
    isOffline := false }

/-- `isNetworkError`: detection of connectivity failures, in source order. -/
def isNetworkError (error : ErrObj) : Bool :=
  (error.isTypeErrorInstance &&
      (strContains (mvalToString error.message) "fetch" ||
       strContains (mvalToString error.message) "Network request failed"))
  ||
  (match error.code with
   | some c => (!c.isEmpty) &&
       (jsStartsWith c "ECONN" || c == "ENOTFOUND" || c == "EAI_AGAIN")
   | none => false)
  ||
  (error.etype == some (ERROR_TYPES ErrorType.NETWORK_ERROR) || error.isOffline)
  ||
  (strContains (jsToLower (mvalToString error.message)) "failed to fetch" ||
   strContains (jsToLower (mvalToString error.message)) "connection refused")

/-- `handleNetworkError`: enhance a standardised error for network failures
(offline flag true: Node environment, no `navigator`). -/
def handleNetworkError (standardError : ErrObj) : ErrObj :=
  { standardError with
    etype := some (ERROR_TYPES ErrorType.NETWORK_ERROR)
    message := (ERROR_MESSAGES (ERROR_TYPES ErrorType.NETWORK_ERROR)).map MVal.str
    isRetryable := true
    isOffline := true }

/-- The `errorDetails` chain of `processApiOrToolError`:
`responseData?.error?.message || responseData?.error ||
originalError?.response?.error?.message || originalError?.details || null`. -/
def errorDetailsOf (originalError : ErrObj) : Option MVal :=
  let t1 : Option MVal :=
    match originalError.responseDataError with
    | some (.objWithMessage m _) => some (.str m)
    | _ => none
  let t2 : Option MVal :=
    match originalError.responseDataError with
    | some (.str s) => some (.str s)
    | some (.objWithMessage _ ser) => some (.objVal ser)
    | some (.objNoMessage ser) => some (.objVal ser)
    | none => none
  let t3 : Option MVal := originalError.responseErrorMessage.map .str
  let t4 : Option MVal := originalError.details.map .str
  jsOrMVal t1 (jsOrMVal t2 (jsOrMVal t3 t4))

/-- The `status` read by `processApiOrToolError`:
`originalError?.status ?? originalError?.response?.status ?? null`. -/
def apiStatusOf (originalError : ErrObj) : Option Nat :=
  jsCoalesceNat originalError.status (jsCoalesceNat originalError.responseStatus none)

/-- The details/message block of `processApiOrToolError`: promote the most
specific available detail, else fall back to the original message. -/
def applyDetailsStage (e originalError : ErrObj) (errorDetails : Option MVal) : ErrObj :=
  if truthyMVal errorDetails then
    { e with
      details := some (match errorDetails with
        | some (.str s) => s
        | some (.objVal ser) => ser
        | none => "")
      message := errorDetails }
  else
    if originalError.isErrorInstance && (originalError.message != e.message) then
      { e with details := match originalError.message with
          | some (.str s) => some s
          | some (.objVal ser) => some ser
          | none => none }
    else e

/-- The status-mapping block of `processApiOrToolError`:
`if (status && STATUS_CODE_MAP[status]) ...`. -/
def applyStatusStage (e : ErrObj) (errorDetails : Option MVal) (status : Option Nat) : ErrObj :=
  if truthyNat status then
    match status with
    | some s =>
      match STATUS_CODE_MAP s with
      | some t =>
        let e1 := { e with etype := some (ERROR_TYPES t) }
        if truthyMVal errorDetails then e1
        else { e1 with message := (ERROR_MESSAGES (ERROR_TYPES t)).map MVal.str }
      | none => e
    | none => e
  else e

/-- The retryability switch of `processApiOrToolError`. -/
def applyRetryStage (e : ErrObj) : ErrObj :=
  if e.etype == some (ERROR_TYPES ErrorType.RATE_LIMITED)
      || e.etype == some (ERROR_TYPES ErrorType.TIMEOUT)
      || e.etype == some (ERROR_TYPES ErrorType.SERVICE_UNAVAILABLE)
      || e.etype == some (ERROR_TYPES ErrorType.API_ERROR) then
    { e with isRetryable := true }
  else e

/-- Whether a possibly-absent message mentions a substring
(`originalError?.message?.includes(url)`). A non-string object message would
make the JS call throw; raw failures carry string messages, so that corner is
modelled as false. -/
def msgIncludes : Option MVal → String → Bool
  | some (.str s), pat => strContains s pat
  | some (.objVal _), _ => false
  | none, _ => false

/-- The tool-server re-tagging block of `processApiOrToolError`. -/
def applyToolServerStage (e originalError : ErrObj) : ErrObj :=
  if (!TOOL_SERVER_BASE_URL.isEmpty)
      && msgIncludes originalError.message TOOL_SERVER_BASE_URL
      && (e.etype != some (ERROR_TYPES ErrorType.NETWORK_ERROR)) then
    let msg0 := (ERROR_MESSAGES (ERROR_TYPES ErrorType.TOOL_SERVER_ERROR)).getD ""
    let msg1 := match e.details with
      | some d => if d.isEmpty then msg0 else msg0 ++ " Details: " ++ d
      | none => msg0
    { e with etype := some (ERROR_TYPES ErrorType.TOOL_SERVER_ERROR)
             message := some (.str msg1)
             isRetryable := false }
  else e

/-- `processApiOrToolError`: the API/tool-server classification pipeline, in
source order. -/
def processApiOrToolError (standardError originalError : ErrObj) : ErrObj :=
  applyToolServerStage
    (applyRetryStage
      (applyStatusStage
        (applyDetailsStage
          { standardError with status := apiStatusOf originalError }
          originalError (errorDetailsOf originalError))
        (errorDetailsOf originalError)
        (apiStatusOf originalError)))
    originalError

/-- `processError`: the main classification entry point. -/
def processError (error : ErrObj) (defaultType : ErrorType) : ErrObj :=
  if isAlreadyProcessed error then error
  else
    let standardError := createStandardError error defaultType
    if isNetworkError error then handleNetworkError standardError
    else processApiOrToolError standardError error

/-- JS string coercion of the result of a `a || b || fallback` chain over
message values. -/
def mvalCoerce (v : Option MVal) (fallback : String) : String :=
  if truthyMVal v then
    match v with
    | some (.str s) => s
    | some (.objVal _) => "[object Object]"
    | none => fallback
  else fallback

/-- `getErrorMessage`: extract a user-friendly message from a processed error
object (processing it first if it was not processed). -/
def getErrorMessage (processedError : ErrObj) (fallback : String) : String :=
  if !processedError.isProcessed then
    let newlyProcessed := processError processedError ErrorType.UNKNOWN_ERROR
    mvalCoerce (jsOrMVal newlyProcessed.message
      ((newlyProcessed.details).map MVal.str)) fallback
  else
    let message := mvalCoerce (jsOrMVal processedError.message
      (((processedError.etype.bind ERROR_MESSAGES)).map MVal.str)) fallback
    match processedError.details with
    | some d =>
      if (!d.isEmpty) && (d != message) then
        message ++ " (Details: " ++ (String.mk (d.toList.take 150)) ++
          (if d.length > 150 then "..." else "") ++ ")"
      else message
    | none => message

/-- `getErrorMessage` at its default fallback,
`ERROR_MESSAGES[ERROR_TYPES.UNKNOWN_ERROR]`. -/
def getErrorMessageDefault (processedError : ErrObj) : String :=
  getErrorMessage processedError (errorMessageOf ErrorType.UNKNOWN_ERROR)

/- ================= JSON values and serialization ================= -/

mutual

/-- The JSON value shapes this program constructs and exchanges with tools
(a capability result resolving to JS undefined is folded into `null`, as the
source does with `result ?? null`). -/
inductive JsonVal where
  | obj : JsonFields → JsonVal
  | str : String → JsonVal
  | bool : Bool → JsonVal
  | null : JsonVal
deriving DecidableEq, Repr

/-- The ordered fields of a JSON object. -/
inductive JsonFields where
  | nil : JsonFields
  | cons : String → JsonVal → JsonFields → JsonFields
deriving DecidableEq, Repr

end

/-- Escaping of one character inside a JSON string literal. -/
def escapeJsonChar (c : Char) : String :=
  if c == '\"' then "\\\""
  else if c == '\\' then "\\\\"
  else if c == '\n' then "\\n"
  else if c == '\t' then "\\t"
  else if c == '\r' then "\\r"
  else String.singleton c

/-- A JSON string literal. -/
def quoteJson (s : String) : String :=
  "\"" ++ String.join (s.toList.map escapeJsonChar) ++ "\""

mutual

/-- `JSON.stringify` over the modelled JSON values. -/
def jsonStringify : JsonVal → String
  | .obj fs => "\x7b" ++ jsonStringifyFields fs ++ "\x7d"
  | .str s => quoteJson s
  | .bool b => if b then "true" else "false"
  | .null => "null"

/-- Serializing the comma-separated fields of a JSON object. -/
def jsonStringifyFields : JsonFields → String
  | .nil => ""
  | .cons k v .nil => quoteJson k ++ ":" ++ jsonStringify v
  | .cons k v rest => quoteJson k ++ ":" ++ jsonStringify v ++ "," ++ jsonStringifyFields rest

end

/-- The structured error payload `{error: true, message: ...}` that every
failure path of the tool invoker embeds into the tool-result content. -/
def mkErrorPayload (message : String) : JsonVal :=
  .obj (.cons "error" (.bool true) (.cons "message" (.str message) .nil))

/- ================= Tool invoker (src/cli/interface.js) ================= -/

/-- The `function` part of a model-requested tool call: name and raw argument
payload (absent payload modelled as `none`). -/
structure ToolFunction where
  name : String
  arguments : Option String
deriving DecidableEq, Repr

/-- A model-requested tool call: opaque id, call type, function part. The
function part is always present here (the main path reads `call.function.name`
unconditionally; a missing function part is representable only through the
optional chaining `call.function?.name || "unknown_function"` of the
unsupported-type branch, modelled below by the fallback on an empty name). -/
structure ToolCallRequest where
  id : String
  ctype : String
  function : ToolFunction
deriving DecidableEq, Repr

/-- A registered tool: unique name and invocation capability. The capability
either resolves to a JSON result or rejects with a JS error value. -/
structure Tool where
  name : String
  call : JsonVal → Except ErrObj JsonVal

/-- A `tool`-role result message as returned to the API. -/
structure ToolResultMessage where
  tool_call_id : String
  role : String
  name : String
  content : String
deriving DecidableEq, Repr

/-- The `invalidArgsError` constructed (and thrown) when the argument payload
fails to parse: `processError({message, details}, INVALID_TOOL_ARGS)`. -/
def invalidArgsError (toolName parseMessage : String) : ErrObj :=
  processError
    { message := some (.str ("Invalid JSON arguments provided for tool " ++ toolName ++
        ". Check the format."))
      details := some parseMessage }
    ErrorType.INVALID_TOOL_ARGS

/-- The catch block around tool execution: ensure the thrown value is
processed, then embed it into the structured error payload. -/
def toolErrorContent (toolName : String) (err : ErrObj) : String :=
  let processedToolError :=
    if isAlreadyProcessed err then err else processError err ErrorType.TOOL_SERVER_ERROR
  jsonStringify (mkErrorPayload
    ("Error in tool " ++ toolName ++ ": " ++ getErrorMessageDefault processedToolError))

/-- The content produced once the tool capability is invoked with parsed
arguments: a successful value is serialized (`JSON.stringify(result ?? null)`),
a rejection goes through the catch block. -/
def toolOutcomeContent (tool : Tool) (args : JsonVal) : String :=
  match tool.call args with
  | .ok result => jsonStringify result
  | .error err => toolErrorContent tool.name err

/-- The raw argument string handed to `JSON.parse`:
`functionToCall.arguments || "{}"`. -/
def effectiveArgString (arguments : Option String) : String :=
  match arguments with
  | none => "\x7b\x7d"
  | some s => if s.isEmpty then "\x7b\x7d" else s

/-- The tool invocation step of `runCLI` for one tool-call request (the body
of the `toolCalls.map` callback). `tools` is the registry, `jparse` the JS
runtime's `JSON.parse` (an error carries the parse exception's message). -/
def invokeToolCall (tools : List Tool)
    (jparse : String → Except String JsonVal)
    (call : ToolCallRequest) : ToolResultMessage :=
  if call.ctype != "function" then
    { tool_call_id := call.id
      role := "tool"
      name := if call.function.name.isEmpty then "unknown_function" else call.function.name
      content := jsonStringify (mkErrorPayload ("Unsupported tool call type: " ++ call.ctype)) }
  else
    let functionToCall := call.function
    let resultJson :=
      match tools.find? (fun t => t.name == functionToCall.name) with
      | none =>
        let toolNotFoundError := processError
          { message := some (.str ("Tool '" ++ functionToCall.name ++ "' not found. Available: " ++
              String.intercalate ", " (tools.map Tool.name))) }
          ErrorType.TOOL_NOT_FOUND
        jsonStringify (mkErrorPayload (getErrorMessageDefault toolNotFoundError))
      | some tool =>
        match jparse (effectiveArgString functionToCall.arguments) with
        | .error parseMessage => toolErrorContent tool.name (invalidArgsError tool.name parseMessage)
        | .ok args => toolOutcomeContent tool args
    { tool_call_id := call.id
      role := "tool"
      name := functionToCall.name
      content := resultJson }

/-- Whether the invocation of one tool-call request takes a failure path:
unsupported call type, unknown tool, unparseable arguments, or a rejecting
capability. -/
def invokeFailurePath (tools : List Tool)
    (jparse : String → Except String JsonVal)
    (call : ToolCallRequest) : Bool :=
  if call.ctype != "function" then true
  else
    match tools.find? (fun t => t.name == call.function.name) with
    | none => true
    | some tool =>
      match jparse (effectiveArgString call.function.arguments) with
      | .error _ => true
      | .ok args =>
        match tool.call args with
        | .ok _ => false
        | .error _ => true

/- ================= Messages and the tool-call batch ================= -/

/-- A conversation message: role, optional text content, tool-call requests
(for assistant messages), and tool-result linkage (for tool messages). -/
structure ChatMessage where
  role : String
  content : Option String := none
  tool_calls : List ToolCallRequest := []
  tool_call_id : Option String := none
  name : Option String := none
deriving DecidableEq, Repr

/-- A `ToolResultMessage` as appended to the conversation history. -/
def toolResultToMessage (m : ToolResultMessage) : ChatMessage :=
  { role := m.role
    content := some m.content
    tool_call_id := some m.tool_call_id
    name := some m.name }

/-- The `TOOL_CALLS_PENDING` step of `runCLI`: dispatch every request of the
batch (`toolCalls.map` + `Promise.all`, whose fulfilled values keep the order
of the mapped array), then append all results to history
(`messages.push(...toolResults)`). Each mapped computation reads only its own
request, so the fan-out is order-independent and modelled by `List.map`. -/
def runToolBatch (tools : List Tool)
    (jparse : String → Except String JsonVal)
    (messages : List ChatMessage)
    (toolCalls : List ToolCallRequest) : List ChatMessage :=
  let toolResults := toolCalls.map (fun call => invokeToolCall tools jparse call)
  messages ++ toolResults.map toolResultToMessage

/- ================= Completion client (src/api/client.js) ================= -/

/-- The success envelope of the completion endpoint. -/
structure ApiResponse where
  choices : List ChatMessage
deriving DecidableEq, Repr

/-- The outcome of one `callChatApi` call: the returned message or thrown
error, the number of attempts performed, and the backoff sleeps (ms, in
order). -/
inductive ApiResult where
  | success : ChatMessage → ApiResult
  | failure : ErrObj → ApiResult
deriving DecidableEq, Repr

/-- `callChatApi` observable outcome. -/
structure ApiOutcome where
  result : ApiResult
  attempts : Nat
  sleeps : List Nat
deriving DecidableEq, Repr

/-- The code after the retry loop of `callChatApi`: throw the last processed
error if one remains, else return the first choice's message, else throw the
defensive unexpected-structure error. -/
def finishCall (response : Option ApiResponse) (lastError : Option ErrObj)
    (attempts : Nat) (sleeps : List Nat) : ApiOutcome :=
  match lastError with
  | some le => { result := .failure le, attempts := attempts, sleeps := sleeps }
  | none =>
    match response with
    | some r =>
      match r.choices with
      | m :: _ => { result := .success m, attempts := attempts, sleeps := sleeps }
      | [] =>
        { result := .failure (processError
            { message := some (.str "API returned an unexpected response structure.")
              isErrorInstance := true } ErrorType.API_ERROR)
          attempts := attempts, sleeps := sleeps }
    | none =>
      { result := .failure (processError
          { message := some (.str "API returned an unexpected response structure.")
            isErrorInstance := true } ErrorType.API_ERROR)
        attempts := attempts, sleeps := sleeps }

/-- The retry loop of `callChatApi`. `env attempt` is what the endpoint does
on that attempt (resolve with a response or reject with an error). `fuel` is
the number of iterations the loop header still allows
(`attempt <= MAX_RETRIES + 1`); exhausting it falls through to the post-loop
check exactly as in the source. On a failure the error is processed at once;
if it is retryable and `attempt < MAX_RETRIES` the loop sleeps
`INITIAL_RETRY_DELAY_MS * 2^(attempt-1)` and continues, otherwise it breaks
and the error is thrown after the loop. -/
def callChatApiLoop (env : Nat → Except ErrObj ApiResponse) :
    Nat → Nat → Option ErrObj → Nat → List Nat → ApiOutcome
  | 0, _, lastError, attempts, sleeps => finishCall none lastError attempts sleeps
  | fuel + 1, attempt, _, attempts, sleeps =>
    match env attempt with
    | .ok response => finishCall (some response) none (attempts + 1) sleeps
    | .error error =>
      let lastError := processError error ErrorType.UNKNOWN_ERROR
      if lastError.isRetryable = true ∧ attempt < MAX_RETRIES then
        callChatApiLoop env fuel (attempt + 1) (some lastError) (attempts + 1)
          (sleeps ++ [INITIAL_RETRY_DELAY_MS * 2 ^ (attempt - 1)])
      else
        finishCall none (some lastError) (attempts + 1) sleeps

/-- `callChatApi`: attempts start at 1, the loop header allows attempts up to
`MAX_RETRIES + 1`. -/
def callChatApi (env : Nat → Except ErrObj ApiResponse) : ApiOutcome :=
  callChatApiLoop env (MAX_RETRIES + 1) 1 none 0 []

/- ================= CLI line dispatch and turn errors ================= -/

/-- What `runCLI` does with one input line before any turn begins. -/
inductive LineAction where
  | quitSession
  | showCost
  | reprompt
  | startTurn : ChatMessage → LineAction
deriving DecidableEq, Repr

/-- The head of the `rl.on('line')` handler: trim, check `quit`, `/cost`,
the empty line, else start a turn with the trimmed text as user message. -/
def dispatchLine (userInput : String) : LineAction :=
  let trimmedInput := jsTrim userInput
  if jsToLower trimmedInput == "quit" then .quitSession
  else if jsToLower trimmedInput == "/cost" then .showCost
  else if trimmedInput.isEmpty then .reprompt
  else .startTurn { role := "user", content := some trimmedInput }

/-- The history effect of one input line: the new history and whether a turn
(and hence a completion call) is started. Only `startTurn` appends. -/
def handleLine (userInput : String) (messages : List ChatMessage) :
    List ChatMessage × Bool :=
  match dispatchLine userInput with
  | .startTurn m => (messages ++ [m], true)
  | _ => (messages, false)

/-- The advice the catch block of the execution loop prepends per error kind
(the non-fatal arms of its switch). -/
def adviceFor (errorType : String) : String :=
  if errorType == ERROR_TYPES ErrorType.RATE_LIMITED then
    "This usually means too many requests were sent quickly. "
  else if errorType == ERROR_TYPES ErrorType.NETWORK_ERROR
      || errorType == ERROR_TYPES ErrorType.TIMEOUT then
    "This seems like a network or connection problem. "
  else if errorType == ERROR_TYPES ErrorType.SERVICE_UNAVAILABLE
      || errorType == ERROR_TYPES ErrorType.API_ERROR then
    "The API service might be temporarily down or experiencing issues. "
  else if errorType == ERROR_TYPES ErrorType.TOOL_SERVER_ERROR
      || errorType == ERROR_TYPES ErrorType.TOOL_NOT_FOUND
      || errorType == ERROR_TYPES ErrorType.INVALID_TOOL_ARGS then
    "There was a problem using one of the tools. "
  else ""

/-- The observable outcome of the catch block of the execution loop: whether
the session ends (readline closed, nothing appended) and otherwise the
apologetic assistant message appended to history. -/
structure TurnErrorResult where
  endsSession : Bool
  appendedMessage : Option String
deriving DecidableEq, Repr

/-- The catch block of the execution loop of `runCLI`: process the error if
needed, then either terminate the session (`API_AUTH_ERROR`: close and return
before any history mutation) or append an apologetic assistant message and
continue to the next prompt. -/
def handleTurnError (error : ErrObj) : TurnErrorResult :=
  let processedError :=
    if isAlreadyProcessed error then error else processError error ErrorType.UNKNOWN_ERROR
  let errorMessageForUser := getErrorMessageDefault processedError
  let errorType := (jsOrStr processedError.etype
    (some (ERROR_TYPES ErrorType.UNKNOWN_ERROR))).getD ""
  if errorType == ERROR_TYPES ErrorType.API_AUTH_ERROR then
    { endsSession := true, appendedMessage := none }
  else
    { endsSession := false
      appendedMessage := some
        ("Sorry, I encountered an issue: " ++ errorMessageForUser ++ ". " ++
         adviceFor errorType ++
         "Please check the error details above. You can try again or enter a new request.") }

/- ================= Concrete scenario values ================= -/

/-- A raw HTTP 429 rejection as the OpenAI client surfaces it. -/
def raw429 : ErrObj :=
  { status := some 429, isErrorInstance := true
    message := some (.str "429 Too Many Requests") }

/-- The assistant message of the successful completion in the retry scenario. -/
def successMessage : ChatMessage :=
  { role := "assistant", content := some "hello" }

/-- The completion endpoint of the retry scenario: attempts 1 to 3 reject
with HTTP 429, attempt 4 (and later) would fulfil. -/
def env429succ : Nat → Except ErrObj ApiResponse := fun attempt =>
  if attempt ≤ 3 then .error raw429
  else .ok { choices := [successMessage] }

/-- A raw HTTP 401 rejection. -/
def err401 : ErrObj :=
  { status := some 401, isErrorInstance := true
    message := some (.str "401 Unauthorized") }

/-- A failure carrying both an HTTP status in the mapping table and a
Node connection-refused code. -/
def status429ConnRefused : ErrObj :=
  { status := some 429, code := some "ECONNREFUSED" }

/-- An object that passes the `isAlreadyProcessed` check without being an
output of the classifier: `isProcessed` is true and `type` is a truthy
string outside the `ERROR_TYPES` enumeration, and there is no message. -/
def bogusProcessed : ErrObj :=
  { isProcessed := true, etype := some "bogus" }

/-- A classified-shaped error of a given kind, as it crosses the boundary
into the execution loop's catch block. -/
def classifiedOfKind (t : ErrorType) : ErrObj :=
  { isProcessed := true, etype := some (ERROR_TYPES t)
    message := some (.str "boom") }

/-- A raw HTTP 404 rejection (witness input for the status table). -/
def err404 : ErrObj :=
  { status := some 404, isErrorInstance := true
    message := some (.str "Not Found") }

/-- A raw HTTP 503 rejection (witness input for retryability). -/
def err503 : ErrObj :=
  { status := some 503, isErrorInstance := true
    message := some (.str "Service Unavailable") }

/-- A demo registry tool whose capability always succeeds. -/
def demoTool : Tool :=
  { name := "echo", call := fun _ => .ok (JsonVal.str "ok") }

/-- A demo `JSON.parse`: accepts exactly the empty-object payload. -/
def demoParse : String → Except String JsonVal := fun s =>
  if s = "\x7b\x7d" then .ok (.obj .nil) else .error "Unexpected token"

/-- A tool-call request for `echo` with an absent argument payload. -/
def demoCallNoArgs : ToolCallRequest :=
  { id := "call_1", ctype := "function"
    function := { name := "echo", arguments := none } }

/- ================= Helper lemmas ================= -/

theorem truthyStr_ERROR_TYPES (t : ErrorType) :
    truthyStr (some (ERROR_TYPES t)) = true := by
  cases t <;> rfl

theorem errorMessageOf_isEmpty (t : ErrorType) :
    (errorMessageOf t).isEmpty = false := by
  cases t <;> rfl

theorem ERROR_MESSAGES_of_type (t : ErrorType) :
    ERROR_MESSAGES (ERROR_TYPES t) = some (errorMessageOf t) := by
  cases t <;> rfl

theorem ERROR_TYPES_mem_strings (t : ErrorType) :
    ERROR_TYPES t ∈ ERROR_TYPE_STRINGS := by
  cases t <;> simp [ERROR_TYPES, ERROR_TYPE_STRINGS]

theorem isEmpty_false_of_length_pos (s : String) (h : 0 < s.length) :
    s.isEmpty = false := by
  cases he : s.isEmpty
  · rfl
  · exfalso
    rw [String.isEmpty_iff] at he
    subst he
    simp at h

theorem createStandardError_isProcessed (e : ErrObj) (d : ErrorType) :
    (createStandardError e d).isProcessed = true := rfl

theorem createStandardError_etype (e : ErrObj) (d : ErrorType) :
    (createStandardError e d).etype = some (ERROR_TYPES d) := rfl

theorem createStandardError_isRetryable (e : ErrObj) (d : ErrorType) :
    (createStandardError e d).isRetryable = false := rfl

theorem createStandardError_message (e : ErrObj) (d : ErrorType) :
    (createStandardError e d).message = some (.str (errorMessageOf d)) := by
  unfold createStandardError
  simp [jsOrStr, ERROR_MESSAGES_of_type, truthyStr, errorMessageOf_isEmpty]

theorem applyDetailsStage_etype (e o : ErrObj) (ed : Option MVal) :
    (applyDetailsStage e o ed).etype = e.etype := by
  unfold applyDetailsStage
  split
  · rfl
  · split <;> rfl

theorem applyDetailsStage_isProcessed (e o : ErrObj) (ed : Option MVal) :
    (applyDetailsStage e o ed).isProcessed = e.isProcessed := by
  unfold applyDetailsStage
  split
  · rfl
  · split <;> rfl

theorem applyDetailsStage_isRetryable (e o : ErrObj) (ed : Option MVal) :
    (applyDetailsStage e o ed).isRetryable = e.isRetryable := by
  unfold applyDetailsStage
  split
  · rfl
  · split <;> rfl

theorem applyDetailsStage_message (e o : ErrObj) (ed : Option MVal)
    (h : truthyMVal e.message = true) :
    truthyMVal (applyDetailsStage e o ed).message = true := by
  unfold applyDetailsStage
  split
  · next hc => simpa using hc
  · split <;> exact h

theorem applyStatusStage_etype_cases (e : ErrObj) (ed : Option MVal) (st : Option Nat) :
    (applyStatusStage e ed st).etype = e.etype ∨
    ∃ t, (applyStatusStage e ed st).etype = some (ERROR_TYPES t) := by
  unfold applyStatusStage
  split
  · split
    · split
      · split
        · next t _ _ => exact Or.inr ⟨t, rfl⟩
        · next t _ _ => exact Or.inr ⟨t, rfl⟩
      · exact Or.inl rfl
    · exact Or.inl rfl
  · exact Or.inl rfl

theorem applyStatusStage_isProcessed (e : ErrObj) (ed : Option MVal) (st : Option Nat) :
    (applyStatusStage e ed st).isProcessed = e.isProcessed := by
  unfold applyStatusStage
  split
  · split
    · split
      · split <;> rfl
      · rfl
    · rfl
  · rfl

theorem applyStatusStage_isRetryable (e : ErrObj) (ed : Option MVal) (st : Option Nat) :
    (applyStatusStage e ed st).isRetryable = e.isRetryable := by
  unfold applyStatusStage
  split
  · split
    · split
      · split <;> rfl
      · rfl
    · rfl
  · rfl

theorem applyStatusStage_message (e : ErrObj) (ed : Option MVal) (st : Option Nat)
    (h : truthyMVal e.message = true) :
    truthyMVal (applyStatusStage e ed st).message = true := by
  unfold applyStatusStage
  split
  · split
    · split
      · split
        · exact h
        · next t _ _ =>
          simp [ERROR_MESSAGES_of_type, truthyMVal, errorMessageOf_isEmpty]
      · exact h
    · exact h
  · exact h

theorem applyStatusStage_mapped (e : ErrObj) (ed : Option MVal) (s : Nat) (t : ErrorType)
    (hs : s ≠ 0) (hm : STATUS_CODE_MAP s = some t) :
    (applyStatusStage e ed (some s)).etype = some (ERROR_TYPES t) := by
  unfold applyStatusStage
  have ht : truthyNat (some s) = true := by simp [truthyNat, hs]
  rw [if_pos ht]
  simp only [hm]
  split <;> rfl

theorem applyRetryStage_etype (e : ErrObj) :
    (applyRetryStage e).etype = e.etype := by
  unfold applyRetryStage
  split <;> rfl

theorem applyRetryStage_isProcessed (e : ErrObj) :
    (applyRetryStage e).isProcessed = e.isProcessed := by
  unfold applyRetryStage
  split <;> rfl

theorem applyRetryStage_message (e : ErrObj) :
    (applyRetryStage e).message = e.message := by
  unfold applyRetryStage
  split <;> rfl

theorem applyToolServerStage_isProcessed (e o : ErrObj) :
    (applyToolServerStage e o).isProcessed = e.isProcessed := by
  unfold applyToolServerStage
  split <;> rfl

theorem applyToolServerStage_skip (e o : ErrObj)
    (h : msgIncludes o.message TOOL_SERVER_BASE_URL = false) :
    applyToolServerStage e o = e := by
  unfold applyToolServerStage
  simp [h]

theorem applyToolServerStage_cases (e o : ErrObj) :
    applyToolServerStage e o = e ∨
    ((applyToolServerStage e o).etype = some (ERROR_TYPES ErrorType.TOOL_SERVER_ERROR) ∧
     (applyToolServerStage e o).isRetryable = false) := by
  unfold applyToolServerStage
  split
  · exact Or.inr ⟨rfl, rfl⟩
  · exact Or.inl rfl

theorem applyToolServerStage_message (e o : ErrObj)
    (h : truthyMVal e.message = true) :
    truthyMVal (applyToolServerStage e o).message = true := by
  unfold applyToolServerStage
  split
  · show truthyMVal (some (MVal.str _)) = true
    have hm : ∀ s : String, s.isEmpty = false → truthyMVal (some (MVal.str s)) = true := by
      intro s hs
      simp [truthyMVal, hs]
    apply hm
    split
    · split
      · simp [ERROR_MESSAGES_of_type, errorMessageOf_isEmpty]
      · apply isEmpty_false_of_length_pos
        rw [String.length_append, String.length_append]
        have h0 : 0 < ((ERROR_MESSAGES (ERROR_TYPES ErrorType.TOOL_SERVER_ERROR)).getD "").length := by
          rw [ERROR_MESSAGES_of_type]
          decide
        omega
    · simp [ERROR_MESSAGES_of_type, errorMessageOf_isEmpty]
  · exact h

theorem processError_already (e : ErrObj) (d : ErrorType)
    (h : isAlreadyProcessed e = true) : processError e d = e := by
  unfold processError
  simp [h]

theorem processError_network (e : ErrObj) (d : ErrorType)
    (h1 : isAlreadyProcessed e = false) (h2 : isNetworkError e = true) :
    processError e d = handleNetworkError (createStandardError e d) := by
  unfold processError
  simp [h1, h2]

theorem processError_api (e : ErrObj) (d : ErrorType)
    (h1 : isAlreadyProcessed e = false) (h2 : isNetworkError e = false) :
    processError e d = processApiOrToolError (createStandardError e d) e := by
  unfold processError
  simp [h1, h2]

theorem processError_inv (e : ErrObj) (d : ErrorType)
    (h : isAlreadyProcessed e = false) :
    (processError e d).isProcessed = true ∧
    (∃ t, (processError e d).etype = some (ERROR_TYPES t)) ∧
    truthyMVal (processError e d).message = true := by
  cases hn : isNetworkError e
  · rw [processError_api e d h hn]
    unfold processApiOrToolError
    set base := { createStandardError e d with status := apiStatusOf e } with hbase
    have hbp : base.isProcessed = true := rfl
    have hbe : base.etype = some (ERROR_TYPES d) := rfl
    have hbm : truthyMVal base.message = true := by
      show truthyMVal (createStandardError e d).message = true
      rw [createStandardError_message]
      simp [truthyMVal, errorMessageOf_isEmpty]
    refine ⟨?_, ?_, ?_⟩
    · rw [applyToolServerStage_isProcessed, applyRetryStage_isProcessed,
        applyStatusStage_isProcessed, applyDetailsStage_isProcessed]
      exact hbp
    · rcases applyToolServerStage_cases
        (applyRetryStage (applyStatusStage (applyDetailsStage base e (errorDetailsOf e))
          (errorDetailsOf e) (apiStatusOf e))) e with hts | ⟨hts, _⟩
      · rw [hts, applyRetryStage_etype]
        rcases applyStatusStage_etype_cases (applyDetailsStage base e (errorDetailsOf e))
            (errorDetailsOf e) (apiStatusOf e) with hst | ⟨t, hst⟩
        · rw [hst, applyDetailsStage_etype]
          exact ⟨d, hbe⟩
        · exact ⟨t, hst⟩
      · exact ⟨ErrorType.TOOL_SERVER_ERROR, hts⟩
    · apply applyToolServerStage_message
      rw [applyRetryStage_message]
      apply applyStatusStage_message
      apply applyDetailsStage_message
      exact hbm
  · rw [processError_network e d h hn]
    refine ⟨rfl, ⟨ErrorType.NETWORK_ERROR, rfl⟩, ?_⟩
    show truthyMVal ((ERROR_MESSAGES (ERROR_TYPES ErrorType.NETWORK_ERROR)).map MVal.str) = true
    rw [ERROR_MESSAGES_of_type]
    simp [truthyMVal, errorMessageOf_isEmpty]

theorem isAlreadyProcessed_processError (e : ErrObj) (d : ErrorType) :
    isAlreadyProcessed (processError e d) = true := by
  cases hap : isAlreadyProcessed e
  · obtain ⟨hp, ⟨t, ht⟩, _⟩ := processError_inv e d hap
    unfold isAlreadyProcessed
    rw [hp, ht, truthyStr_ERROR_TYPES]
    rfl
  · rw [processError_already e d hap]
    exact hap

/- ================= Claim theorems ================= -/

/-- C4: `processError` (classify) is idempotent: applying it to the
classified error it produced returns that object unchanged, for every input
and for every choice of default kinds on the two applications. -/
theorem processError_idempotent (e : ErrObj) (d dtwo : ErrorType) :
    processError (processError e d) dtwo = processError e d :=
  processError_already (processError e d) dtwo (isAlreadyProcessed_processError e d)

/-- C9 counterexample: an input that already carries `isProcessed: true` and a
truthy `type` outside the `ERROR_TYPES` enumeration, with no message, is
returned unchanged by `processError`; so not every value returned by
`processError` has a kind from the enumeration, nor a message. -/
theorem processError_invariant_counterexample :
    processError bogusProcessed ErrorType.UNKNOWN_ERROR = bogusProcessed ∧
    (processError bogusProcessed ErrorType.UNKNOWN_ERROR).isProcessed = true ∧
    ¬ (∃ s, (processError bogusProcessed ErrorType.UNKNOWN_ERROR).etype = some s ∧
        s ∈ ERROR_TYPE_STRINGS) ∧
    (processError bogusProcessed ErrorType.UNKNOWN_ERROR).message = none := by
  refine ⟨rfl, rfl, ?_, rfl⟩
  rintro ⟨s, hs, hmem⟩
  rw [show (processError bogusProcessed ErrorType.UNKNOWN_ERROR).etype = some "bogus" from rfl]
    at hs
  cases hs
  simp [ERROR_TYPE_STRINGS] at hmem

/-- C9 (amended): every value `processError` returns for an input that does
not already pass the `isAlreadyProcessed` check satisfies the invariant
(`isProcessed` true, kind from the `ERROR_TYPES` enumeration, truthy
message); and the fixpoints of `processError` are exactly the values passing
the `isAlreadyProcessed` check (`isProcessed === true` with a truthy `type`),
which include objects that are not classifier outputs. -/
theorem processError_output_invariant :
    (∀ (e : ErrObj) (d : ErrorType), isAlreadyProcessed e = false →
        (processError e d).isProcessed = true ∧
        (∃ s, (processError e d).etype = some s ∧ s ∈ ERROR_TYPE_STRINGS) ∧
        truthyMVal (processError e d).message = true) ∧
    (∀ (e : ErrObj) (d : ErrorType), processError e d = e ↔ isAlreadyProcessed e = true) := by
  constructor
  · intro e d h
    obtain ⟨hp, ⟨t, ht⟩, hmsg⟩ := processError_inv e d h
    exact ⟨hp, ⟨ERROR_TYPES t, ht, ERROR_TYPES_mem_strings t⟩, hmsg⟩
  · intro e d
    constructor
    · intro hfix
      have := isAlreadyProcessed_processError e d
      rwa [hfix] at this
    · intro hap
      exact processError_already e d hap

/-- C3 counterexample: a failure whose HTTP status 429 is in the mapping
table but which also carries a Node connection code is classified as
`NETWORK_ERROR`, not as the mapped `RATE_LIMITED`: the network check
pre-empts the status table. -/
theorem status_table_counterexample :
    STATUS_CODE_MAP 429 = some ErrorType.RATE_LIMITED ∧
    (processError status429ConnRefused ErrorType.UNKNOWN_ERROR).etype =
      some (ERROR_TYPES ErrorType.NETWORK_ERROR) ∧
    (processError status429ConnRefused ErrorType.UNKNOWN_ERROR).etype ≠
      some (ERROR_TYPES ErrorType.RATE_LIMITED) := by
  refine ⟨rfl, rfl, ?_⟩
  rw [show (processError status429ConnRefused ErrorType.UNKNOWN_ERROR).etype =
      some (ERROR_TYPES ErrorType.NETWORK_ERROR) from rfl]
  simp [ERROR_TYPES]

/-- C3 (amended): for every failure that is not already classified, is not a
network-class failure, and whose message does not mention the tool-server
base URL, if its HTTP status (the `?? `-chain over `status` and
`response.status`) is in `STATUS_CODE_MAP` then `processError` returns a
classified error whose kind is exactly the mapped kind of that status. -/
theorem status_table_mapped (e : ErrObj) (d : ErrorType) (s : Nat) (k : ErrorType)
    (h1 : isAlreadyProcessed e = false)
    (h2 : isNetworkError e = false)
    (h3 : msgIncludes e.message TOOL_SERVER_BASE_URL = false)
    (h4 : apiStatusOf e = some s)
    (h5 : STATUS_CODE_MAP s = some k) :
    (processError e d).etype = some (ERROR_TYPES k) := by
  have hs0 : s ≠ 0 := by
    intro h
    subst h
    simp [STATUS_CODE_MAP] at h5
  rw [processError_api e d h1 h2]
  unfold processApiOrToolError
  rw [applyToolServerStage_skip _ _ h3, applyRetryStage_etype, h4,
    applyStatusStage_mapped _ _ s k hs0 h5]

/-- C3 witness: a plain HTTP 404 failure satisfies the side conditions and is
classified as `NOT_FOUND`. -/
theorem status_table_mapped_witness :
    isAlreadyProcessed err404 = false ∧
    isNetworkError err404 = false ∧
    msgIncludes err404.message TOOL_SERVER_BASE_URL = false ∧
    apiStatusOf err404 = some 404 ∧
    STATUS_CODE_MAP 404 = some ErrorType.NOT_FOUND ∧
    (processError err404 ErrorType.UNKNOWN_ERROR).etype =
      some (ERROR_TYPES ErrorType.NOT_FOUND) :=
  ⟨rfl, rfl, rfl, rfl, rfl,
    status_table_mapped err404 ErrorType.UNKNOWN_ERROR 404 ErrorType.NOT_FOUND
      rfl rfl rfl rfl rfl⟩

/-- C5: for every failure classified via the status table (not already
classified, not network-class, status in the map), the retryable flag of the
result is true exactly when the resulting kind is `RATE_LIMITED`, `TIMEOUT`,
`SERVICE_UNAVAILABLE` or `API_ERROR` (also when the tool-server re-tagging
overrides the mapped kind: the re-tagged kind is none of the four and the
flag is forced false); and network-class failures are separately marked
retryable with kind `NETWORK_ERROR`. -/
theorem retryable_iff_kind (e : ErrObj) (d : ErrorType) (s : Nat) (k : ErrorType)
    (h1 : isAlreadyProcessed e = false) :
    (isNetworkError e = true →
      (processError e d).isRetryable = true ∧
      (processError e d).etype = some (ERROR_TYPES ErrorType.NETWORK_ERROR)) ∧
    (isNetworkError e = false → apiStatusOf e = some s → STATUS_CODE_MAP s = some k →
      ((processError e d).isRetryable = true ↔
        ((processError e d).etype = some (ERROR_TYPES ErrorType.RATE_LIMITED) ∨
         (processError e d).etype = some (ERROR_TYPES ErrorType.TIMEOUT) ∨
         (processError e d).etype = some (ERROR_TYPES ErrorType.SERVICE_UNAVAILABLE) ∨
         (processError e d).etype = some (ERROR_TYPES ErrorType.API_ERROR)))) := by
  constructor
  · intro hn
    rw [processError_network e d h1 hn]
    exact ⟨rfl, rfl⟩
  · intro hn h4 h5
    have hs0 : s ≠ 0 := by
      intro h
      subst h
      simp [STATUS_CODE_MAP] at h5
    rw [processError_api e d h1 hn]
    unfold processApiOrToolError
    rw [h4]
    set Y := applyStatusStage
      (applyDetailsStage { createStandardError e d with status := some s } e (errorDetailsOf e))
      (errorDetailsOf e) (some s) with hY
    have hYe : Y.etype = some (ERROR_TYPES k) :=
      applyStatusStage_mapped _ _ s k hs0 h5
    have hYr : Y.isRetryable = false := by
      rw [hY, applyStatusStage_isRetryable, applyDetailsStage_isRetryable]
      rfl
    rcases applyToolServerStage_cases (applyRetryStage Y) e with hts | ⟨htse, htsr⟩
    · rw [hts]
      have hre : (applyRetryStage Y).etype = some (ERROR_TYPES k) := by
        rw [applyRetryStage_etype, hYe]
      rw [hre]
      unfold applyRetryStage
      rw [hYe]
      cases k <;> simp [ERROR_TYPES, hYr]
    · rw [htse, htsr]
      simp [ERROR_TYPES]

/-- C5 witness: a plain HTTP 503 failure is classified via the table as
`SERVICE_UNAVAILABLE` and its retryable flag agrees with the biconditional. -/
theorem retryable_iff_kind_witness :
    isAlreadyProcessed err503 = false ∧
    ((processError err503 ErrorType.UNKNOWN_ERROR).isRetryable = true ↔
      ((processError err503 ErrorType.UNKNOWN_ERROR).etype =
          some (ERROR_TYPES ErrorType.RATE_LIMITED) ∨
       (processError err503 ErrorType.UNKNOWN_ERROR).etype =
          some (ERROR_TYPES ErrorType.TIMEOUT) ∨
       (processError err503 ErrorType.UNKNOWN_ERROR).etype =
          some (ERROR_TYPES ErrorType.SERVICE_UNAVAILABLE) ∨
       (processError err503 ErrorType.UNKNOWN_ERROR).etype =
          some (ERROR_TYPES ErrorType.API_ERROR))) :=
  ⟨rfl,
    (retryable_iff_kind err503 ErrorType.UNKNOWN_ERROR 503 ErrorType.SERVICE_UNAVAILABLE
      rfl).2 rfl rfl rfl⟩

/-- C7: a completion failure with HTTP 401 is classified as `API_AUTH_ERROR`
and not retryable; `callChatApi` then performs exactly one attempt with no
backoff sleep and throws the classified error; the execution loop's error
handler terminates the session on it without appending a history message; and
over classified errors of every kind, the session ends exactly when the kind
is `API_AUTH_ERROR` (every other kind appends an apologetic message and
continues). -/
theorem http401_fatal :
    (processError err401 ErrorType.UNKNOWN_ERROR).etype =
      some (ERROR_TYPES ErrorType.API_AUTH_ERROR) ∧
    (processError err401 ErrorType.UNKNOWN_ERROR).isRetryable = false ∧
    callChatApi (fun _ => .error err401) =
      { result := .failure (processError err401 ErrorType.UNKNOWN_ERROR)
        attempts := 1, sleeps := [] } ∧
    (handleTurnError (processError err401 ErrorType.UNKNOWN_ERROR)).endsSession = true ∧
    (handleTurnError (processError err401 ErrorType.UNKNOWN_ERROR)).appendedMessage = none ∧
    (∀ t : ErrorType,
      (handleTurnError (classifiedOfKind t)).endsSession =
        decide (t = ErrorType.API_AUTH_ERROR)) ∧
    (∀ t : ErrorType,
      (handleTurnError (classifiedOfKind t)).appendedMessage.isSome =
        !(decide (t = ErrorType.API_AUTH_ERROR))) := by
  refine ⟨rfl, rfl, rfl, rfl, rfl, ?_, ?_⟩
  · intro t
    cases t <;> rfl
  · intro t
    cases t <;> rfl

/-- C1: at the spec scenario (HTTP 429 rejections on attempts 1 to 3, a
success available from attempt 4 on) `callChatApi` performs only
`MAX_RETRIES = 3` attempts with two backoff sleeps of 1000 ms and 2000 ms and
throws the classified 429 error: because the retry guard is
`attempt < MAX_RETRIES` while the loop header allows `MAX_RETRIES + 1`
attempts, the fourth attempt is never made, no third sleep of 4000 ms
happens, and the successful message is not returned. -/
theorem callChatApi_retry_off_by_one :
    callChatApi env429succ =
      { result := .failure (processError raw429 ErrorType.UNKNOWN_ERROR)
        attempts := 3, sleeps := [1000, 2000] } ∧
    (callChatApi env429succ).attempts ≠ MAX_RETRIES + 1 ∧
    (callChatApi env429succ).sleeps ≠ [1000, 2000, 4000] ∧
    (∀ m, (callChatApi env429succ).result ≠ .success m) ∧
    (processError raw429 ErrorType.UNKNOWN_ERROR).isRetryable = true ∧
    env429succ 4 = .ok { choices := [successMessage] } := by
  refine ⟨rfl, ?_, ?_, ?_, rfl, rfl⟩
  · rw [show (callChatApi env429succ).attempts = 3 from rfl]
    decide
  · rw [show (callChatApi env429succ).sleeps = [1000, 2000] from rfl]
    decide
  · intro m
    rw [show (callChatApi env429succ).result =
        .failure (processError raw429 ErrorType.UNKNOWN_ERROR) from rfl]
    intro h
    cases h

/-- C2: the tool invocation step is a total function (nothing escapes it): for
every registry, every `JSON.parse` behaviour and every tool-call request it
produces a `tool`-role message carrying the request's `tool_call_id`, and on
every failure path (unsupported call type, unknown tool, unparseable argument
payload, rejecting capability) the content is the serialized structured
payload `{error: true, message: ...}`. -/
theorem invokeToolCall_never_raises
    (tools : List Tool) (jparse : String → Except String JsonVal)
    (call : ToolCallRequest) :
    (invokeToolCall tools jparse call).tool_call_id = call.id ∧
    (invokeToolCall tools jparse call).role = "tool" ∧
    (invokeFailurePath tools jparse call = true →
      ∃ m, (invokeToolCall tools jparse call).content =
        jsonStringify (mkErrorPayload m)) := by
  refine ⟨?_, ?_, ?_⟩
  · unfold invokeToolCall
    split <;> rfl
  · unfold invokeToolCall
    split <;> rfl
  · intro hfail
    unfold invokeFailurePath at hfail
    unfold invokeToolCall
    split at hfail
    · next h =>
      rw [if_pos h]
      exact ⟨_, rfl⟩
    · next h =>
      rw [if_neg h]
      dsimp only
      split at hfail
      · exact ⟨_, rfl⟩
      · rename_i tool hfind
        split at hfail
        · exact ⟨_, by unfold toolErrorContent; rfl⟩
        · rename_i args hp
          split at hfail
          · cases hfail
          · rename_i err htc
            refine ⟨"Error in tool " ++ tool.name ++ ": " ++
              getErrorMessageDefault (if isAlreadyProcessed err then err
                else processError err ErrorType.TOOL_SERVER_ERROR), ?_⟩
            show toolOutcomeContent tool args = _
            unfold toolOutcomeContent
            rw [htc]
            rfl

/-- C6: the tool-call batch step appends one result message per request, in
the same relative order as the requests appeared in the assistant message,
after the untouched history prefix; each entry is the invocation of its own
request only (so one failing request cannot affect its siblings) and carries
that request's `tool_call_id`. -/
theorem runToolBatch_order
    (tools : List Tool) (jparse : String → Except String JsonVal)
    (messages : List ChatMessage) (toolCalls : List ToolCallRequest) :
    runToolBatch tools jparse messages toolCalls =
      messages ++ toolCalls.map
        (fun c => toolResultToMessage (invokeToolCall tools jparse c)) ∧
    (runToolBatch tools jparse messages toolCalls).length =
      messages.length + toolCalls.length ∧
    (∀ i, i < messages.length →
      (runToolBatch tools jparse messages toolCalls).get? i = messages.get? i) ∧
    (∀ i c, toolCalls.get? i = some c →
      (runToolBatch tools jparse messages toolCalls).get? (messages.length + i) =
        some (toolResultToMessage (invokeToolCall tools jparse c)) ∧
      (invokeToolCall tools jparse c).tool_call_id = c.id) := by
  refine ⟨?_, ?_, ?_, ?_⟩
  · show messages ++ (toolCalls.map
        (fun call => invokeToolCall tools jparse call)).map toolResultToMessage = _
    rw [List.map_map]
    rfl
  · unfold runToolBatch
    simp
  · intro i hi
    unfold runToolBatch
    rw [List.get?_append hi]
  · intro i c hc
    constructor
    · unfold runToolBatch
      rw [List.get?_append_right (Nat.le_add_right _ _), Nat.add_sub_cancel_left,
        List.get?_map, List.get?_map, hc]
      rfl
    · unfold invokeToolCall
      split <;> rfl

/-- C8: a user input line that is empty after trimming starts no turn: the
dispatcher reissues the prompt and the message history is left unchanged (in
particular no completion call is made). -/
theorem empty_input_no_turn (userInput : String) (messages : List ChatMessage)
    (h : jsTrim userInput = "") :
    dispatchLine userInput = LineAction.reprompt ∧
    handleLine userInput messages = (messages, false) := by
  have hd : dispatchLine userInput = LineAction.reprompt := by
    unfold dispatchLine
    rw [h]
    rfl
  refine ⟨hd, ?_⟩
  unfold handleLine
  rw [hd]

/-- C8 witness: a whitespace-only line. -/
theorem empty_input_no_turn_witness :
    jsTrim "   " = "" ∧
    (dispatchLine "   " = LineAction.reprompt ∧
     handleLine "   " [] = ([], false)) :=
  ⟨rfl, empty_input_no_turn "   " [] rfl⟩

/-- C10: when the tool exists and the argument payload is absent or the empty
string, the invoker parses `arguments || "\x7b\x7d"` as the empty object and
invokes the capability with it (no `INVALID_TOOL_ARGS` payload); only a
non-empty payload rejected by `JSON.parse` produces the invalid-arguments
error payload, whose content does not involve the capability at all. -/
theorem empty_args_parse_as_empty_object
    (tools : List Tool) (jparse : String → Except String JsonVal)
    (call : ToolCallRequest) (tool : Tool)
    (hct : call.ctype = "function")
    (hfind : tools.find? (fun t => t.name == call.function.name) = some tool)
    (hparse : jparse "\x7b\x7d" = Except.ok (JsonVal.obj JsonFields.nil)) :
    ((call.function.arguments = none ∨ call.function.arguments = some "") →
      invokeToolCall tools jparse call =
        { tool_call_id := call.id, role := "tool", name := call.function.name
          content := toolOutcomeContent tool (JsonVal.obj JsonFields.nil) }) ∧
    (∀ s pm, call.function.arguments = some s → s.isEmpty = false →
      jparse s = Except.error pm →
      invokeToolCall tools jparse call =
        { tool_call_id := call.id, role := "tool", name := call.function.name
          content := toolErrorContent tool.name (invalidArgsError tool.name pm) }) := by
  have hctb : (call.ctype != "function") = false := by
    rw [hct]
    rfl
  constructor
  · intro hargs
    have hes : effectiveArgString call.function.arguments = "\x7b\x7d" := by
      rcases hargs with ha | ha <;> rw [ha] <;> rfl
    unfold invokeToolCall
    rw [hctb]
    simp only [Bool.false_eq_true, if_false, hfind, hes, hparse]
  · intro s pm hsome hs hperr
    have hes : effectiveArgString call.function.arguments = s := by
      rw [hsome]
      show (if s.isEmpty = true then "\x7b\x7d" else s) = s
      rw [hs]
      rfl
    unfold invokeToolCall
    rw [hctb]
    simp only [Bool.false_eq_true, if_false, hfind, hes, hperr]

/-- C10 witness: the `echo` tool invoked with an absent argument payload is
called with the empty object. -/
theorem empty_args_parse_as_empty_object_witness :
    invokeToolCall [demoTool] demoParse demoCallNoArgs =
      { tool_call_id := "call_1", role := "tool", name := "echo"
        content := toolOutcomeContent demoTool (JsonVal.obj JsonFields.nil) } :=
  (empty_args_parse_as_empty_object [demoTool] demoParse demoCallNoArgs demoTool
    rfl rfl rfl).1 (Or.inl rfl)
